import Mathlib

/-!
Shallow embedding of the EzWeb Site Health Monitoring & Alerting Engine
(`internal/health/checker.go`) and proofs about its behaviour.

Go machine integers are modelled as `Int` (no overflow is relevant to the
checker: counters only increment and HTTP status codes are small), Go
strings as `String`, nilable results and fallible calls as `Option`.
-/

/-- Per-site in-memory failure/alert state: the `failures[siteID]` counter
and the `alertedSites[siteID]` flag of `Checker` (checker.go lines 32-33).
Go map lookups of missing keys yield the zero values 0 and false, so a
site's initial state is `⟨0, false⟩`. -/
structure SiteState where
  failures : Nat
  alerted : Bool
deriving DecidableEq, Repr

/-- The lazily-created state of a never-before-seen site: Go zero values. -/
def initialState : SiteState := ⟨0, false⟩

/-- Down-verdict rule, checker.go line 174:
`isDown := hc.HTTPStatus == 0 || hc.HTTPStatus >= 400 || hc.ContainerStatus == "not_found" || hc.ContainerStatus == "exited"`. -/
def isDown (httpStatus : Int) (containerStatus : String) : Bool :=
  httpStatus == 0 || decide (400 ≤ httpStatus) ||
    containerStatus == "not_found" || containerStatus == "exited"

/-- The mutex-protected decide-and-update block of `checkSite`
(checker.go lines 182-200). Returns the new per-site state together with
the `shouldAlert` and `shouldRecover` flags that drive post-lock dispatch.
On a down verdict the counter is incremented and, when the new count
reaches the threshold with the site not yet alerted, the alerted flag is
set before the lock is released; on an up verdict the state is reset
unconditionally and recovery fires when the site was down and alerted. -/
def lockedUpdate (threshold : Nat) (st : SiteState) (down : Bool) :
    SiteState × Bool × Bool :=
  if down then
    let count := st.failures + 1
    if threshold ≤ count ∧ st.alerted = false then
      (⟨count, true⟩, true, false)
    else
      (⟨count, st.alerted⟩, false, false)
  else
    (⟨0, false⟩, false, decide (0 < st.failures) && st.alerted)

/-- One full round of `checkSite`'s state machine and webhook dispatch for
a site with a configured webhook notifier, abstracted over the round's
down/up verdict (checker.go lines 182-213). `webhookOk` tells whether the
`SendAlert` network call succeeds; on failure the alerted flag is rolled
back under the lock (line 210) while the counter is left untouched.
Returns the state after dispatch, plus whether a `SendAlert` call and a
`SendRecovery` call were made this round. -/
def roundStep (threshold : Nat) (webhookOk : Bool) (st : SiteState)
    (down : Bool) : SiteState × Bool × Bool :=
  let upd := lockedUpdate threshold st down
  let st2 := if upd.2.1 && !webhookOk then { upd.1 with alerted := false } else upd.1
  (st2, upd.2.1, upd.2.2)

/-- Sequential rounds for a single site: one verdict per round, threading
the per-site state. Returns the final state and, per round in order, the
pair (alert call made, recovery call made). -/
def runVerdicts (threshold : Nat) (webhookOk : Bool) (st : SiteState) :
    List Bool → SiteState × List (Bool × Bool)
  | [] => (st, [])
  | d :: rest =>
      let r := roundStep threshold webhookOk st d
      let tail := runVerdicts threshold webhookOk r.1 rest
      (tail.1, (r.2.1, r.2.2) :: tail.2)

/-- The three operations that mutate a site's failure/alert state:
the locked down-update and up-update (checker.go lines 183-199) and the
rollback of the alerted flag after a failed webhook alert (line 210). -/
inductive StateOp where
  | update (down : Bool)
  | rollbackAlert
deriving DecidableEq, Repr

/-- Apply one state-mutating operation. -/
def applyOp (threshold : Nat) (st : SiteState) : StateOp → SiteState
  | .update down => (lockedUpdate threshold st down).1
  | .rollbackAlert => { st with alerted := false }

/-- Spec invariant on per-site state: a zero failure counter implies the
alerted flag is clear. -/
def stateInv (st : SiteState) : Prop := st.failures = 0 → st.alerted = false

/-- `NewChecker`'s alert-threshold defaulting (checker.go lines 44-46):
a non-positive configured threshold is replaced by 3. -/
def effectiveAlertThreshold (alertThreshold : Int) : Int :=
  if alertThreshold ≤ 0 then 3 else alertThreshold

/-- The configuration-relevant fields `NewChecker` stores on the returned
`Checker` (checker.go lines 39-60): the webhook is only constructed for a
non-empty URL, and the alert threshold is defaulted when non-positive. -/
structure CheckerConfig where
  alertThreshold : Int
  webhookPresent : Bool
  healthRetentionDays : Int
  activityRetentionDays : Int
deriving DecidableEq, Repr

/-- `NewChecker` (checker.go lines 39-60), restricted to the fields the
claims are about. -/
def NewChecker (webhookURL : String)
    (alertThreshold healthRetentionDays activityRetentionDays : Int) :
    CheckerConfig :=
  { alertThreshold := effectiveAlertThreshold alertThreshold
    webhookPresent := webhookURL != ""
    healthRetentionDays := healthRetentionDays
    activityRetentionDays := activityRetentionDays }

/- ------------------------------------------------------------------ -/
/- Probe-level embedding of checkSite: sites, probe environments,
   container checks, and the per-site event trace. -/

/-- The fields of `models.Site` read by the health checker. `hasServer`
models `site.ServerID.Valid`. -/
structure Site where
  id : Int
  domain : String
  sslEnabled : Bool
  isLocal : Bool
  hasServer : Bool
  containerName : String
  composePath : String
deriving DecidableEq, Repr

/-- One container as seen by `cli.ContainerList`: its name list and its
`State` string. -/
structure ContainerInfo where
  names : List String
  state : String
deriving DecidableEq, Repr

/-- Go `strings.Contains sub s`-style check: `sub` occurs in `s`. -/
def stringContains (s sub : String) : Bool := decide (sub.data <:+: s.data)

/-- The container name used for the local lookup (checker.go lines
246-249): the site's container name, or the domain with dots replaced by
dashes when the name is empty. -/
def containerNameFor (site : Site) : String :=
  if site.containerName = "" then site.domain.replace "." "-"
  else site.containerName

/-- The compose fallback scan over the listed containers (checker.go
lines 257-264): the state of the first container one of whose names
contains the looked-up container name. -/
def findMatch (containerName : String) : List ContainerInfo → Option String
  | [] => none
  | c :: rest =>
      if c.names.any (fun n => stringContains n containerName) then
        some c.state
      else findMatch containerName rest

/-- Outcomes of the external docker calls made by `checkLocalContainer`:
whether the local client could be created, the inspect result (`none`
models an inspect error), and the container list (`none` models a list
error). -/
structure DockerEnv where
  clientOk : Bool
  inspect : Option String
  listResult : Option (List ContainerInfo)
deriving DecidableEq, Repr

/-- Outcomes of the external calls made by `checkRemoteContainer`:
whether `GetServerByID` succeeds, whether the SSH dial succeeds, and the
remote command result (`none` models a command error). -/
structure SSHEnv where
  serverLookupOk : Bool
  sshConnectOk : Bool
  runCommand : Option String
deriving DecidableEq, Repr

/-- `checkLocalContainer` (checker.go lines 235-272), returning the
`ContainerStatus` it stores on the health-check record. A client-creation
failure yields `docker_error`; an inspect error falls back to a
compose-label scan when a compose path is configured, and to `not_found`
when the scan misses, the list call fails, or no compose path is set. -/
def checkLocalContainer (site : Site) (denv : DockerEnv) : String :=
  if denv.clientOk = false then "docker_error"
  else
    match denv.inspect with
    | some status => status
    | none =>
        if site.composePath ≠ "" then
          match denv.listResult with
          | some cs =>
              match findMatch (containerNameFor site) cs with
              | some state => state
              | none => "not_found"
          | none => "not_found"
        else "not_found"

/-- `checkRemoteContainer` (checker.go lines 274-294), returning the
final `ContainerStatus` of the record, whose Go zero value is the empty
string. A failed server lookup returns early without touching the status;
a failed SSH dial yields `ssh_error`; a failed remote command yields
`unknown`; otherwise the trimmed command output is stored. -/
def checkRemoteContainer (senv : SSHEnv) : String :=
  if senv.serverLookupOk = false then ""
  else if senv.sshConnectOk = false then "ssh_error"
  else
    match senv.runCommand with
    | none => "unknown"
    | some output => output.trim

/-- The externally observable per-site steps of `checkSite`, in program
order. `certAlert` is the webhook `SendAlert` issued directly by the
certificate-expiry probe (always with failure count 0, checker.go line
152); `sendAlert` is the webhook `SendAlert` dispatched by the
failure/alert state machine, carrying the current failure count. -/
inductive Event where
  | probeHTTP
  | probeCert
  | certAlert (failureCount : Nat)
  | probeContainer
  | writeRecord
  | stateUpdate
  | sendAlert (failureCount : Nat)
  | sendRecovery
  | emailAlert
  | emailRecovery
deriving DecidableEq, Repr

/-- Which notifier channels are configured and whether the webhook
`SendAlert` network call succeeds this round. -/
structure Notify where
  webhookPresent : Bool
  webhookAlertOk : Bool
  emailPresent : Bool
deriving DecidableEq, Repr

/-- Results of the external probes for one site in one round:
the HTTP GET result (`none` models a transport error), the computed
whole-days-until-expiry when the certificate check succeeds (`none`
models a failed check), and the docker/SSH environments. -/
structure ProbeEnv where
  httpResult : Option Int
  certDays : Option Int
  denv : DockerEnv
  senv : SSHEnv
deriving DecidableEq, Repr

/-- Events of the HTTP probe (checker.go lines 121-139): performed only
for a site with a non-empty domain. -/
def httpEvents (site : Site) : List Event :=
  if site.domain = "" then [] else [.probeHTTP]

/-- Events of the certificate-expiry probe (checker.go lines 144-159):
performed only for SSL-enabled sites with a domain; when the check
succeeds and the computed days-until-expiry is in (0, 14] and a webhook
is configured, a `SendAlert` with failure count 0 is issued at once. -/
def certEvents (nt : Notify) (site : Site) (certDays : Option Int) :
    List Event :=
  if site.sslEnabled = true ∧ site.domain ≠ "" then
    match certDays with
    | some d =>
        if d ≤ 14 ∧ 0 < d ∧ nt.webhookPresent = true then
          [.probeCert, .certAlert 0]
        else [.probeCert]
    | none => [.probeCert]
  else []

/-- Events of the container probe (checker.go lines 162-166): performed
for local sites and for sites with an assigned server. -/
def containerEvents (site : Site) : List Event :=
  if site.isLocal = true ∨ site.hasServer = true then [.probeContainer]
  else []

/-- The `ContainerStatus` computed for the round (checker.go lines
162-166); sites that are neither local nor server-assigned keep the zero
value. -/
def containerStatusOf (site : Site) (env : ProbeEnv) : String :=
  if site.isLocal = true then checkLocalContainer site env.denv
  else if site.hasServer = true then checkRemoteContainer env.senv
  else ""

/-- The `HTTPStatus` recorded for the round (checker.go lines 121-139):
0 when no HTTP check runs or the transport fails, the response code
otherwise. -/
def httpStatusOf (site : Site) (env : ProbeEnv) : Int :=
  if site.domain = "" then 0
  else
    match env.httpResult with
    | none => 0
    | some code => code

/-- The post-lock notification dispatch (checker.go lines 204-232), in
program order: webhook alert, webhook recovery, email alert, email
recovery, each gated on its channel being configured. -/
def dispatchPhase (nt : Notify) (shouldAlert shouldRecover : Bool)
    (failCount : Nat) : List Event :=
  (if shouldAlert = true ∧ nt.webhookPresent = true then
      [Event.sendAlert failCount] else [])
    ++ (if shouldRecover = true ∧ nt.webhookPresent = true then
      [Event.sendRecovery] else [])
    ++ (if shouldAlert = true ∧ nt.emailPresent = true then
      [Event.emailAlert] else [])
    ++ (if shouldRecover = true ∧ nt.emailPresent = true then
      [Event.emailRecovery] else [])

/-- The probe phase of `checkSite`: HTTP probe, then certificate probe
(including its immediate alert), then container probe. -/
def probePhase (nt : Notify) (site : Site) (env : ProbeEnv) : List Event :=
  httpEvents site ++ certEvents nt site env.certDays ++ containerEvents site

/-- One full execution of `checkSite` (checker.go lines 115-233) for one
site in one round: returns the site's failure/alert state after the round
and the ordered trace of externally observable steps. The health-check
record is written (line 168) after the probes and before the verdict is
computed (line 174); the locked state update follows, and notification
dispatch happens last, outside the lock. A failed webhook alert rolls the
alerted flag back (line 210). -/
def checkSiteTrace (threshold : Nat) (nt : Notify) (site : Site)
    (env : ProbeEnv) (st : SiteState) : SiteState × List Event :=
  let down := isDown (httpStatusOf site env) (containerStatusOf site env)
  let upd := lockedUpdate threshold st down
  let st2 :=
    if upd.2.1 = true ∧ nt.webhookPresent = true ∧ nt.webhookAlertOk = false
    then { upd.1 with alerted := false } else upd.1
  (st2,
    probePhase nt site env ++ [Event.writeRecord, Event.stateUpdate]
      ++ dispatchPhase nt upd.2.1 upd.2.2 upd.1.failures)

/-- Sequential rounds of `checkSite` for one site, given the probe
environment of each round; the traces are concatenated in order. -/
def runSiteRounds (threshold : Nat) (nt : Notify) (site : Site) :
    List ProbeEnv → SiteState → SiteState × List Event
  | [], st => (st, [])
  | env :: rest, st =>
      let r := checkSiteTrace threshold nt site env st
      let tail := runSiteRounds threshold nt site rest r.1
      (tail.1, r.2 ++ tail.2)


/-- Recognizer for the certificate-expiry probe's immediate webhook
alert. -/
def isCertAlert : Event → Bool
  | .certAlert _ => true
  | _ => false

/-- Number of certificate-expiry webhook alerts in a trace. -/
def countCertAlerts (tr : List Event) : Nat := (tr.filter isCertAlert).length

/-- Whether a round's certificate probe fires its webhook alert
(checker.go lines 144-155): SSL-enabled site with a domain, a successful
certificate check whose computed days-until-expiry lies in (0, 14], and a
configured webhook. -/
def certQualifies (nt : Notify) (site : Site) (certDays : Option Int) :
    Bool :=
  decide (site.sslEnabled = true ∧ site.domain ≠ "") &&
    (match certDays with
     | some d => decide (d ≤ 14 ∧ 0 < d ∧ nt.webhookPresent = true)
     | none => false)

/-- Probe-phase events: the three probes and the certificate probe's
immediate alert. -/
def isProbe : Event → Bool
  | .probeHTTP => true
  | .probeCert => true
  | .certAlert _ => true
  | .probeContainer => true
  | _ => false

/-- The health-check record write. -/
def isWrite : Event → Bool
  | .writeRecord => true
  | _ => false

/-- The locked failure/alert state update. -/
def isUpdate : Event → Bool
  | .stateUpdate => true
  | _ => false

/-- Post-lock notification dispatch events decided by the state machine. -/
def isDispatch : Event → Bool
  | .sendAlert _ => true
  | .sendRecovery => true
  | .emailAlert => true
  | .emailRecovery => true
  | _ => false

/-- `pairOrdered p q tr` holds when every `p`-event of the trace precedes
every `q`-event: no `p`-event occurs strictly after any `q`-event. -/
def pairOrdered (p q : Event → Bool) : List Event → Bool
  | [] => true
  | e :: rest => (!(q e) || !(rest.any p)) && pairOrdered p q rest

/-- The per-site step order asserted by the claim: probes, then verdict
and state update, then dispatch, and the record write after all of them. -/
def claimedOrderC7 (tr : List Event) : Bool :=
  pairOrdered isProbe isUpdate tr && pairOrdered isUpdate isDispatch tr
    && pairOrdered isDispatch isWrite tr && pairOrdered isUpdate isWrite tr
    && pairOrdered isProbe isWrite tr

/- ------------------------------------------------------------------ -/
/- Scheduler model (Start / checkAll, checker.go lines 62-113). -/

/-- The worker-pool capacity, checker.go line 21. -/
def maxConcurrentChecks : Nat := 10

/-- Abstract state of the round scheduler: the atomic `running` flag, the
number of launched-but-unfinished probe tasks of the current round, how
many rounds were started and how many pruning passes ran (round work
indicators), and whether the context was cancelled. -/
structure SchedState where
  running : Bool
  activeWorkers : Nat
  roundsStarted : Nat
  prunes : Nat
  cancelled : Bool
deriving DecidableEq, Repr

/-- Events of the scheduler's step relation: a ticker tick (or the
immediate first invocation of `checkAll`), one probe task finishing, the
round's `wg.Wait` returning and the deferred flag store clearing the
flag, and context cancellation. -/
inductive SchedEvent where
  | tick
  | workerFinish
  | roundComplete
  | cancel
deriving DecidableEq, Repr

/-- One step of the scheduler (checker.go lines 62-113) for a registry of
`numSites` non-pending sites. A tick first tries the compare-and-swap on
the flag (line 81): if a round is already running, or the context is
cancelled, nothing at all happens; otherwise the flag is set, the pruning
statements run, and one probe task per site is launched. A task finish
decrements the in-flight count; the round completes — clearing the flag —
only when every launched task has finished (`wg.Wait`, line 112). -/
def schedStep (numSites : Nat) (s : SchedState) : SchedEvent → SchedState
  | .tick =>
      if s.cancelled = true then s
      else if s.running = true then s
      else
        { s with running := true, prunes := s.prunes + 1,
                 activeWorkers := numSites,
                 roundsStarted := s.roundsStarted + 1 }
  | .workerFinish =>
      if s.running = true ∧ 0 < s.activeWorkers then
        { s with activeWorkers := s.activeWorkers - 1 }
      else s
  | .roundComplete =>
      if s.running = true ∧ s.activeWorkers = 0 then
        { s with running := false }
      else s
  | .cancel => { s with cancelled := true }

/-- The scheduler before `Start` runs: flag idle, nothing started. -/
def schedInit : SchedState := ⟨false, 0, 0, 0, false⟩

/-- `Start` (checker.go line 66) runs one round immediately before
entering the tick loop. -/
def schedStart (numSites : Nat) : SchedState :=
  schedStep numSites schedInit .tick

/- ------------------------------------------------------------------ -/
/- Worker-pool model (checkAll's launch loop, checker.go lines 98-112). -/

/-- State of one round's worker pool: semaphore slots currently held,
workers launched, workers finished, sites still to launch, and whether
`wg.Wait` has returned (the round is complete). -/
structure PoolState where
  semCount : Nat
  launched : Nat
  finished : Nat
  toLaunch : Nat
  roundDone : Bool
deriving DecidableEq, Repr

/-- Events of one round's worker pool: the launcher acquiring a
semaphore slot and starting the next site's goroutine (possible only
while a slot is free, since the channel send blocks at capacity), a
worker finishing (releasing its slot), and `wg.Wait` returning (possible
only when every site was launched and every launched worker finished). -/
inductive PoolEvent where
  | launch
  | finish
  | complete
deriving DecidableEq, Repr

/-- One step of the worker pool (checker.go lines 98-112). -/
def poolStep (s : PoolState) : PoolEvent → PoolState
  | .launch =>
      if 0 < s.toLaunch ∧ s.semCount < maxConcurrentChecks then
        { s with toLaunch := s.toLaunch - 1, launched := s.launched + 1,
                 semCount := s.semCount + 1 }
      else s
  | .finish =>
      if s.finished < s.launched ∧ 0 < s.semCount then
        { s with finished := s.finished + 1, semCount := s.semCount - 1 }
      else s
  | .complete =>
      if s.toLaunch = 0 ∧ s.finished = s.launched then
        { s with roundDone := true }
      else s

/-- The pool at the start of a round over `numSites` non-pending sites. -/
def poolInit (numSites : Nat) : PoolState := ⟨0, 0, 0, numSites, false⟩

/-- The pool after an arbitrary interleaving of launcher and worker
steps. -/
def poolRun (numSites : Nat) (evts : List PoolEvent) : PoolState :=
  evts.foldl poolStep (poolInit numSites)

/-- The inductive invariant of the pool: held slots count exactly the
in-flight workers, never exceed the cap, launches never exceed the site
count, and a completed round has no in-flight workers and no unlaunched
site. -/
def poolInv (numSites : Nat) (s : PoolState) : Prop :=
  s.finished + s.semCount = s.launched
  ∧ s.semCount ≤ maxConcurrentChecks
  ∧ s.launched + s.toLaunch = numSites
  ∧ (s.roundDone = true → s.finished = s.launched ∧ s.toLaunch = 0)

/- ================= THEOREMS ================= -/
/- ------------------------------------------------------------------ -/
/- Helper lemmas on the state machine. -/

/-- Every output of a state-mutating operation satisfies the invariant:
a down-update leaves a positive counter, an up-update resets to the
initial state, and a rollback clears the alerted flag. -/
theorem applyOp_inv (threshold : Nat) (st : SiteState) (op : StateOp) :
    stateInv (applyOp threshold st op) := by
  cases op with
  | update down =>
      cases down with
      | false =>
          intro _
          simp [applyOp, lockedUpdate]
      | true =>
          intro h
          simp only [applyOp, lockedUpdate, if_pos] at h
          split at h <;> simp_all
  | rollbackAlert => intro _; rfl

theorem foldl_applyOp_inv (threshold : Nat) (ops : List StateOp)
    (st : SiteState) (h : stateInv st) :
    stateInv (ops.foldl (applyOp threshold) st) := by
  induction ops generalizing st with
  | nil => exact h
  | cons op rest ih =>
      exact ih (applyOp threshold st op) (applyOp_inv threshold st op)

/-- While a site is already alerted, further down rounds neither fire an
alert nor clear the alerted flag, and the counter keeps incrementing. -/
theorem roundStep_down_alerted (threshold : Nat) (ok : Bool)
    (st : SiteState) (h : st.alerted = true) :
    roundStep threshold ok st true =
      (⟨st.failures + 1, true⟩, false, false) := by
  simp [roundStep, lockedUpdate, h]

/-- No alert call is made over any all-down run started in an alerted
state, and dispatch outcomes aside, the state stays alerted. -/
theorem noAlertWhileAlerted (threshold : Nat) (ok : Bool)
    (downs : List Bool) (st : SiteState)
    (hall : ∀ d ∈ downs, d = true) (h : st.alerted = true) :
    ((runVerdicts threshold ok st downs).2.filter (fun r => r.1)).length = 0 := by
  induction downs generalizing st with
  | nil => rfl
  | cons d rest ih =>
      have hd : d = true := hall d (List.mem_cons_self d rest)
      subst hd
      simp only [runVerdicts, roundStep_down_alerted threshold ok st h]
      simp only [List.filter_cons]
      have := ih ⟨st.failures + 1, true⟩
        (fun x hx => hall x (List.mem_cons_of_mem true hx)) rfl
      simpa using this

/- ------------------------------------------------------------------ -/
/- Claims C1, C2, C3, C4, C10. -/

/-- C1: the down-verdict for a round is true iff `HTTPStatus == 0`, or
`HTTPStatus >= 400`, or `ContainerStatus` is `not_found` or `exited`; in
particular HTTP 404 and a transport failure (status 0) both yield down,
and HTTP 200 combined with container status `exited` also yields down. -/
theorem C1_down_verdict (hs : Int) (cs : String) :
    (isDown hs cs = true ↔
      hs = 0 ∨ 400 ≤ hs ∨ cs = "not_found" ∨ cs = "exited")
    ∧ isDown 404 "running" = true
    ∧ isDown 0 "running" = true
    ∧ isDown 200 "exited" = true := by
  refine ⟨?_, by decide, by decide, by decide⟩
  simp [isDown, or_assoc]

/-- C2: for a single site processed sequentially with threshold 3 and all
notifier calls succeeding, the verdict sequence down, down, down, down, up
produces exactly one alert call, fired on the third round (where the
counter first reaches 3), and exactly one recovery call, fired on the up
round; no second alert fires for the same unresolved outage. -/
theorem C2_alert_debounce :
    runVerdicts 3 true initialState [true, true, true, true, false] =
      (⟨0, false⟩,
        [(false, false), (false, false), (true, false), (false, false),
          (false, true)])
    ∧ (((runVerdicts 3 true initialState
          [true, true, true, true, false]).2.filter (fun r => r.1)).length = 1)
    ∧ (((runVerdicts 3 true initialState
          [true, true, true, true, false]).2.filter (fun r => r.2)).length = 1) := by
  refine ⟨by decide, by decide, by decide⟩

/-- C3: starting from the initial empty state, every sequence of the three
state-mutating operations (down-update, up-update, webhook-failure
rollback) preserves the invariant that a zero failure counter implies the
alerted flag is false; moreover any up verdict unconditionally resets the
state to counter 0 and alerted false. -/
theorem C3_invariant (threshold : Nat) (ops : List StateOp) :
    stateInv (ops.foldl (applyOp threshold) initialState)
    ∧ ∀ st : SiteState, applyOp threshold st (.update false) = ⟨0, false⟩ := by
  constructor
  · exact foldl_applyOp_inv threshold ops initialState (fun _ => rfl)
  · intro st
    simp [applyOp, lockedUpdate]

/-- Witness for C3 at concrete inputs: one down-update from the initial
state keeps the invariant (discharging its hypothesis at failures = 0 is
impossible there, so we instead exercise it on an up-update result), and
an up-update from an alerted state resets to ⟨0, false⟩. -/
theorem C3_invariant_witness :
    (([StateOp.update false].foldl (applyOp 3) initialState).alerted = false)
    ∧ applyOp 3 ⟨2, true⟩ (.update false) = ⟨0, false⟩ :=
  ⟨(C3_invariant 3 [StateOp.update false]).1 rfl,
    (C3_invariant 3 []).2 ⟨2, true⟩⟩

/-- C4: when the locked update decides to alert, a failing webhook
`SendAlert` leaves the counter at its incremented value but rolls the
alerted flag back to false, so the immediately following down round fires
`SendAlert` again; a succeeding `SendAlert` leaves the flag true and no
further alert call is made over any subsequent run of down verdicts. -/
theorem C4_webhook_failure_retry (threshold : Nat) (st : SiteState)
    (hA : (lockedUpdate threshold st true).2.1 = true) :
    ((roundStep threshold false st true).1.failures = st.failures + 1
      ∧ (roundStep threshold false st true).1.alerted = false
      ∧ (roundStep threshold false
          ((roundStep threshold false st true).1) true).2.1 = true)
    ∧ ((roundStep threshold true st true).1.alerted = true
      ∧ ∀ (downs : List Bool), (∀ d ∈ downs, d = true) → ∀ ok : Bool,
          ((runVerdicts threshold ok
              ((roundStep threshold true st true).1) downs).2.filter
            (fun r => r.1)).length = 0) := by
  have hcond : threshold ≤ st.failures + 1 ∧ st.alerted = false := by
    by_contra hc
    simp [lockedUpdate, hc] at hA
  obtain ⟨hth, hal⟩ := hcond
  have hupd : lockedUpdate threshold st true =
      (⟨st.failures + 1, true⟩, true, false) := by
    simp [lockedUpdate, hth, hal]
  constructor
  · refine ⟨?_, ?_, ?_⟩
    · simp [roundStep, hupd]
    · simp [roundStep, hupd]
    · have h1 : (roundStep threshold false st true).1 =
          ⟨st.failures + 1, false⟩ := by
        simp [roundStep, hupd]
      rw [h1]
      have hth2 : threshold ≤ st.failures + 1 + 1 := Nat.le_succ_of_le hth
      simp [roundStep, lockedUpdate, hth2]
  · have h2 : (roundStep threshold true st true).1 =
        ⟨st.failures + 1, true⟩ := by
      simp [roundStep, hupd]
    refine ⟨by rw [h2], ?_⟩
    intro downs hall ok
    rw [h2]
    exact noAlertWhileAlerted threshold ok downs ⟨st.failures + 1, true⟩ hall rfl

/-- Witness for C4 at threshold 3 from state ⟨2, false⟩, where the locked
update decides to alert. -/
theorem C4_webhook_failure_retry_witness :
    (roundStep 3 false ⟨2, false⟩ true).1.alerted = false
    ∧ (roundStep 3 true ⟨2, false⟩ true).1.alerted = true :=
  ⟨(C4_webhook_failure_retry 3 ⟨2, false⟩ (by decide)).1.2.1,
    (C4_webhook_failure_retry 3 ⟨2, false⟩ (by decide)).2.1⟩

/-- C10: `NewChecker` replaces a non-positive alert threshold by 3 and
keeps any threshold at least 1 unchanged. -/
theorem C10_threshold_default (url : String) (t h a : Int) :
    (t ≤ 0 → (NewChecker url t h a).alertThreshold = 3)
    ∧ (1 ≤ t → (NewChecker url t h a).alertThreshold = t) := by
  constructor
  · intro ht
    simp [NewChecker, effectiveAlertThreshold, ht]
  · intro ht
    have : ¬ t ≤ 0 := by omega
    simp [NewChecker, effectiveAlertThreshold, this]

/-- Witness for C10 at thresholds 0 and 5. -/
theorem C10_threshold_default_witness :
    (NewChecker "" 0 30 30).alertThreshold = 3
    ∧ (NewChecker "" 5 30 30).alertThreshold = 5 :=
  ⟨(C10_threshold_default "" 0 30 30).1 (by decide),
    (C10_threshold_default "" 5 30 30).2 (by decide)⟩


/- ------------------------------------------------------------------ -/
/- Helper lemmas for the certificate-expiry alert (claim C5). -/

theorem httpEvents_filter_cert (site : Site) :
    (httpEvents site).filter isCertAlert = [] := by
  unfold httpEvents; split <;> rfl

theorem containerEvents_filter_cert (site : Site) :
    (containerEvents site).filter isCertAlert = [] := by
  unfold containerEvents; split <;> rfl

theorem dispatchPhase_filter_cert (nt : Notify) (a r : Bool) (n : Nat) :
    (dispatchPhase nt a r n).filter isCertAlert = [] := by
  unfold dispatchPhase
  simp only [List.filter_append]
  split <;> split <;> split <;> split <;> rfl

theorem certEvents_filter_cert (nt : Notify) (site : Site)
    (cd : Option Int) :
    (certEvents nt site cd).filter isCertAlert =
      if certQualifies nt site cd = true then [Event.certAlert 0]
      else [] := by
  unfold certEvents certQualifies
  by_cases h1 : site.sslEnabled = true ∧ site.domain ≠ ""
  · cases cd with
    | none => simp [h1, List.filter, isCertAlert]
    | some d =>
        by_cases h2 : d ≤ 14 ∧ 0 < d ∧ nt.webhookPresent = true
        · simp [h1, h2, List.filter, isCertAlert]
        · simp [h1, h2, List.filter, isCertAlert]
  · simp [h1]

/-- The certificate-expiry alerts of one `checkSite` execution: exactly
one, carrying failure count 0, precisely when the round qualifies, and
independent of the site's failure/alert state. -/
theorem trace_filter_certAlert (threshold : Nat) (nt : Notify)
    (site : Site) (env : ProbeEnv) (st : SiteState) :
    (checkSiteTrace threshold nt site env st).2.filter isCertAlert =
      if certQualifies nt site env.certDays = true then [Event.certAlert 0]
      else [] := by
  show (probePhase nt site env
      ++ [Event.writeRecord, Event.stateUpdate]
      ++ dispatchPhase nt _ _ _).filter isCertAlert = _
  unfold probePhase
  simp only [List.filter_append, httpEvents_filter_cert,
    containerEvents_filter_cert, dispatchPhase_filter_cert,
    certEvents_filter_cert]
  split <;> rfl

theorem countCertAlerts_rounds (threshold : Nat) (nt : Notify)
    (site : Site) (envs : List ProbeEnv) (st : SiteState) :
    countCertAlerts (runSiteRounds threshold nt site envs st).2 =
      (envs.filter (fun e => certQualifies nt site e.certDays)).length := by
  induction envs generalizing st with
  | nil => rfl
  | cons env rest ih =>
      show countCertAlerts
          ((checkSiteTrace threshold nt site env st).2
            ++ (runSiteRounds threshold nt site rest
                (checkSiteTrace threshold nt site env st).1).2) = _
      unfold countCertAlerts
      rw [List.filter_append, List.length_append]
      rw [trace_filter_certAlert]
      have htail := ih (checkSiteTrace threshold nt site env st).1
      unfold countCertAlerts at htail
      rw [htail, List.filter_cons]
      by_cases hq : certQualifies nt site env.certDays = true
      · simp [hq]; omega
      · simp [hq]

/-- C5: for every SSL-enabled site with a non-empty domain whose
certificate check succeeds and with a configured webhook, the certificate
probe issues a webhook `SendAlert` with failure count 0 exactly when the
computed whole-days-until-expiry lies in (0, 14]; the alert never
modifies the site's failure/alert state (the round's resulting state is
the same as with no certificate result at all, for every incoming state),
and — being memoryless — it fires on every qualifying round: over any
round sequence the number of certificate alerts equals the number of
qualifying rounds. -/
theorem C5_cert_expiry_alert (threshold : Nat) (nt : Notify) (site : Site)
    (env : ProbeEnv) (st : SiteState) (d : Int)
    (h1 : site.sslEnabled = true) (h2 : site.domain ≠ "")
    (h3 : env.certDays = some d) (h4 : nt.webhookPresent = true) :
    (countCertAlerts (checkSiteTrace threshold nt site env st).2 =
      if 0 < d ∧ d ≤ 14 then 1 else 0)
    ∧ (Event.certAlert 0 ∈ (checkSiteTrace threshold nt site env st).2 ↔
        0 < d ∧ d ≤ 14)
    ∧ ((checkSiteTrace threshold nt site env st).1 =
        (checkSiteTrace threshold nt site
          { env with certDays := none } st).1)
    ∧ ∀ envs : List ProbeEnv,
        countCertAlerts (runSiteRounds threshold nt site envs st).2 =
          (envs.filter (fun e => certQualifies nt site e.certDays)).length := by
  have hq : certQualifies nt site env.certDays =
      decide (0 < d ∧ d ≤ 14) := by
    simp only [certQualifies, h3, h1, h4]
    by_cases hd : 0 < d ∧ d ≤ 14
    · simp [hd.1, hd.2, h2]
    · rcases Decidable.not_and_iff_or_not.mp hd with hd1 | hd2
      · simp [hd1, hd, h2]
      · simp [hd2, hd, h2]
  have hf := trace_filter_certAlert threshold nt site env st
  rw [hq] at hf
  refine ⟨?_, ?_, rfl, fun envs => countCertAlerts_rounds threshold nt site envs st⟩
  · unfold countCertAlerts
    rw [hf]
    by_cases hd : 0 < d ∧ d ≤ 14
    · simp [hd]
    · simp [hd]
  · constructor
    · intro hmem
      by_contra hd
      have : Event.certAlert 0 ∈
          (checkSiteTrace threshold nt site env st).2.filter isCertAlert :=
        List.mem_filter.mpr ⟨hmem, rfl⟩
      rw [hf] at this
      simp [hd] at this
    · intro hd
      have : Event.certAlert 0 ∈
          (checkSiteTrace threshold nt site env st).2.filter isCertAlert := by
        rw [hf]
        simp [hd]
      exact List.mem_of_mem_filter this

/-- Witness for C5: threshold 3, webhook configured, SSL site `a.com`,
certificate expiring in 7 days — exactly one certificate alert fires. -/
theorem C5_cert_expiry_alert_witness :
    countCertAlerts
      (checkSiteTrace 3 ⟨true, true, false⟩
        ⟨1, "a.com", true, false, false, "c", ""⟩
        ⟨some 200, some 7, ⟨true, none, none⟩, ⟨true, true, none⟩⟩
        initialState).2 = 1 := by
  have h := (C5_cert_expiry_alert 3 ⟨true, true, false⟩
    ⟨1, "a.com", true, false, false, "c", ""⟩
    ⟨some 200, some 7, ⟨true, none, none⟩, ⟨true, true, none⟩⟩
    initialState 7 rfl (by decide) rfl rfl).1
  simpa using h

/- ------------------------------------------------------------------ -/
/- Claim C6: container-probe failure encoding. -/

/-- C6 as stated is false: when `GetServerByID` fails,
`checkRemoteContainer` returns early (checker.go line 277) without
setting `ContainerStatus`, leaving the record's zero value — the empty
string, which is none of the four sentinels. -/
theorem C6_counterexample :
    checkRemoteContainer ⟨false, true, some "running"⟩ = ""
    ∧ ¬ (("" : String) = "docker_error" ∨ ("" : String) = "ssh_error"
        ∨ ("" : String) = "not_found" ∨ ("" : String) = "unknown") := by
  exact ⟨rfl, by decide⟩

/-- C6 amended: every failure path of the container probe other than the
server-record lookup sets one of the sentinels `docker_error`,
`ssh_error`, `not_found`, `unknown`; a server-record lookup failure
leaves the container status at its initial empty value; and no failure
aborts the check — both functions are total and return a status string. -/
theorem C6_amended_sentinels (site : Site) (denv : DockerEnv)
    (senv : SSHEnv) :
    (denv.clientOk = false → checkLocalContainer site denv = "docker_error")
    ∧ (denv.clientOk = true → denv.inspect = none →
        site.composePath = "" → checkLocalContainer site denv = "not_found")
    ∧ (denv.clientOk = true → denv.inspect = none →
        denv.listResult = none → checkLocalContainer site denv = "not_found")
    ∧ (∀ cs, denv.clientOk = true → denv.inspect = none →
        denv.listResult = some cs →
        findMatch (containerNameFor site) cs = none →
        checkLocalContainer site denv = "not_found")
    ∧ (senv.serverLookupOk = true → senv.sshConnectOk = false →
        checkRemoteContainer senv = "ssh_error")
    ∧ (senv.serverLookupOk = true → senv.sshConnectOk = true →
        senv.runCommand = none → checkRemoteContainer senv = "unknown")
    ∧ (senv.serverLookupOk = false → checkRemoteContainer senv = "") := by
  refine ⟨?_, ?_, ?_, ?_, ?_, ?_, ?_⟩
  · intro h; simp [checkLocalContainer, h]
  · intro h1 h2 h3; simp [checkLocalContainer, h1, h2, h3]
  · intro h1 h2 h3
    simp [checkLocalContainer, h1, h2, h3]
  · intro cs h1 h2 h3 h4
    simp [checkLocalContainer, h1, h2, h3, h4]
  · intro h1 h2; simp [checkRemoteContainer, h1, h2]
  · intro h1 h2 h3; simp [checkRemoteContainer, h1, h2, h3]
  · intro h1; simp [checkRemoteContainer, h1]

/-- Witness for C6's amended statement at concrete failure inputs. -/
theorem C6_amended_sentinels_witness :
    checkLocalContainer ⟨1, "a.com", false, true, false, "c", ""⟩
        ⟨false, none, none⟩ = "docker_error"
    ∧ checkRemoteContainer ⟨true, false, none⟩ = "ssh_error"
    ∧ checkRemoteContainer ⟨false, true, some "x"⟩ = "" :=
  ⟨(C6_amended_sentinels ⟨1, "a.com", false, true, false, "c", ""⟩
      ⟨false, none, none⟩ ⟨true, false, none⟩).1 rfl,
    (C6_amended_sentinels ⟨1, "a.com", false, true, false, "c", ""⟩
      ⟨false, none, none⟩ ⟨true, false, none⟩).2.2.2.2.1 rfl rfl,
    (C6_amended_sentinels ⟨1, "a.com", false, true, false, "c", ""⟩
      ⟨false, none, none⟩ ⟨false, true, some "x"⟩).2.2.2.2.2.2 rfl⟩

/- ------------------------------------------------------------------ -/
/- Claim C7: per-site step order. Helper lemmas about event classes
   and the pairOrdered predicate. -/

theorem mem_httpEvents (site : Site) (e : Event)
    (he : e ∈ httpEvents site) : e = Event.probeHTTP := by
  unfold httpEvents at he
  split at he <;> simp_all

theorem mem_certEvents (nt : Notify) (site : Site) (cd : Option Int)
    (e : Event) (he : e ∈ certEvents nt site cd) :
    e = Event.probeCert ∨ e = Event.certAlert 0 := by
  unfold certEvents at he
  by_cases h1 : site.sslEnabled = true ∧ site.domain ≠ ""
  · rw [if_pos h1] at he
    cases cd with
    | none => simp at he; simp [he]
    | some d =>
        by_cases hb : d ≤ 14 ∧ 0 < d ∧ nt.webhookPresent = true
        · simp [hb] at he
          tauto
        · simp [hb] at he
          simp [he]
  · rw [if_neg h1] at he
    simp at he

theorem mem_containerEvents (site : Site) (e : Event)
    (he : e ∈ containerEvents site) : e = Event.probeContainer := by
  unfold containerEvents at he
  split at he <;> simp_all

theorem mem_probePhase (nt : Notify) (site : Site) (env : ProbeEnv)
    (e : Event) (he : e ∈ probePhase nt site env) : isProbe e = true := by
  unfold probePhase at he
  simp only [List.mem_append] at he
  rcases he with (he | he) | he
  · rw [mem_httpEvents site e he]; rfl
  · rcases mem_certEvents nt site env.certDays e he with h | h <;> rw [h] <;> rfl
  · rw [mem_containerEvents site e he]; rfl

theorem mem_dispatchPhase (nt : Notify) (a r : Bool) (n : Nat) (e : Event)
    (he : e ∈ dispatchPhase nt a r n) : isDispatch e = true := by
  unfold dispatchPhase at he
  simp only [List.mem_append] at he
  rcases he with ((he | he) | he) | he <;> split at he <;>
    simp_all [isDispatch]

theorem pairOrdered_of_no_p (p q : Event → Bool) (l : List Event)
    (h : ∀ e ∈ l, p e = false) : pairOrdered p q l = true := by
  induction l with
  | nil => rfl
  | cons e rest ih =>
      have hany : rest.any p = false := by
        rw [List.any_eq_false]
        intro x hx
        simp [h x (List.mem_cons_of_mem e hx)]
      simp [pairOrdered, hany,
        ih (fun x hx => h x (List.mem_cons_of_mem e hx))]

theorem pairOrdered_append (p q : Event → Bool) (l1 l2 : List Event)
    (h1 : ∀ e ∈ l1, q e = false) (h2 : ∀ e ∈ l2, p e = false) :
    pairOrdered p q (l1 ++ l2) = true := by
  induction l1 with
  | nil => simpa using pairOrdered_of_no_p p q l2 h2
  | cons e rest ih =>
      have hq : q e = false := h1 e (List.mem_cons_self e rest)
      simp only [List.cons_append, pairOrdered, hq]
      simp [ih (fun x hx => h1 x (List.mem_cons_of_mem e hx))]

theorem isProbe_not_others (e : Event) (h : isProbe e = true) :
    isWrite e = false ∧ isUpdate e = false ∧ isDispatch e = false := by
  cases e <;> simp_all [isProbe, isWrite, isUpdate, isDispatch]

theorem isDispatch_not_others (e : Event) (h : isDispatch e = true) :
    isProbe e = false ∧ isWrite e = false ∧ isUpdate e = false := by
  cases e <;> simp_all [isProbe, isWrite, isUpdate, isDispatch]

/-- The step order of any trace shaped like `checkSite`'s: a probe phase,
then the record write, then the locked state update, then dispatch. -/
theorem order_lemma (P D : List Event)
    (hP : ∀ e ∈ P, isProbe e = true) (hD : ∀ e ∈ D, isDispatch e = true) :
    pairOrdered isProbe isWrite
        (P ++ [Event.writeRecord, Event.stateUpdate] ++ D) = true
    ∧ pairOrdered isWrite isUpdate
        (P ++ [Event.writeRecord, Event.stateUpdate] ++ D) = true
    ∧ pairOrdered isUpdate isDispatch
        (P ++ [Event.writeRecord, Event.stateUpdate] ++ D) = true := by
  have hPw : ∀ e ∈ P, isWrite e = false :=
    fun e he => (isProbe_not_others e (hP e he)).1
  have hPu : ∀ e ∈ P, isUpdate e = false :=
    fun e he => (isProbe_not_others e (hP e he)).2.1
  have hPd : ∀ e ∈ P, isDispatch e = false :=
    fun e he => (isProbe_not_others e (hP e he)).2.2
  have hDp : ∀ e ∈ D, isProbe e = false :=
    fun e he => (isDispatch_not_others e (hD e he)).1
  have hDw : ∀ e ∈ D, isWrite e = false :=
    fun e he => (isDispatch_not_others e (hD e he)).2.1
  have hDu : ∀ e ∈ D, isUpdate e = false :=
    fun e he => (isDispatch_not_others e (hD e he)).2.2
  refine ⟨?_, ?_, ?_⟩
  · rw [List.append_assoc]
    apply pairOrdered_append _ _ _ _ hPw
    intro e he
    rcases List.mem_append.mp he with he | he
    · rcases List.mem_cons.mp he with he | he
      · rw [he]; rfl
      · rcases List.mem_singleton.mp he with he
        rw [he]; rfl
    · exact hDp e he
  · have hsplit : P ++ [Event.writeRecord, Event.stateUpdate] ++ D =
        (P ++ [Event.writeRecord]) ++ ([Event.stateUpdate] ++ D) := by
      simp
    rw [hsplit]
    apply pairOrdered_append
    · intro e he
      rcases List.mem_append.mp he with he | he
      · exact hPu e he
      · rcases List.mem_singleton.mp he with he
        rw [he]; rfl
    · intro e he
      rcases List.mem_append.mp he with he | he
      · rcases List.mem_singleton.mp he with he
        rw [he]; rfl
      · exact hDw e he
  · apply pairOrdered_append
    · intro e he
      rcases List.mem_append.mp he with he | he
      · exact hPd e he
      · rcases List.mem_cons.mp he with he | he
        · rw [he]; rfl
        · rcases List.mem_singleton.mp he with he
          rw [he]; rfl
    · exact hDu

/-- C7 fails as stated: for a concrete down round with a configured
webhook and alert threshold 1, the per-site trace writes the health-check
record before the state update and the alert dispatch (checker.go line
168 precedes lines 174-232), contradicting the claimed order in which the
record write comes last. -/
theorem C7_counterexample :
    (checkSiteTrace 1 ⟨true, true, false⟩
        ⟨1, "a.com", false, false, false, "c", ""⟩
        ⟨some 500, none, ⟨true, none, none⟩, ⟨true, true, none⟩⟩
        initialState).2 =
      [.probeHTTP, .writeRecord, .stateUpdate, .sendAlert 1]
    ∧ claimedOrderC7
        [.probeHTTP, .writeRecord, .stateUpdate, .sendAlert 1] = false :=
  ⟨by decide, by decide⟩

/-- C7 amended: within one site's check the steps occur in the order
probes (HTTP, certificate, container) → health-check record write →
verdict and locked state update → notification dispatch outside the
lock: every probe event precedes the record write, the record write
precedes the state update, and the state update precedes every
dispatched notification. -/
theorem C7_amended_step_order (threshold : Nat) (nt : Notify)
    (site : Site) (env : ProbeEnv) (st : SiteState) :
    pairOrdered isProbe isWrite
        (checkSiteTrace threshold nt site env st).2 = true
    ∧ pairOrdered isWrite isUpdate
        (checkSiteTrace threshold nt site env st).2 = true
    ∧ pairOrdered isUpdate isDispatch
        (checkSiteTrace threshold nt site env st).2 = true :=
  order_lemma (probePhase nt site env)
    (dispatchPhase nt
      (lockedUpdate threshold st
        (isDown (httpStatusOf site env) (containerStatusOf site env))).2.1
      (lockedUpdate threshold st
        (isDown (httpStatusOf site env) (containerStatusOf site env))).2.2
      (lockedUpdate threshold st
        (isDown (httpStatusOf site env) (containerStatusOf site env))).1.failures)
    (mem_probePhase nt site env)
    (mem_dispatchPhase nt _ _ _)

/- ------------------------------------------------------------------ -/
/- Claims C8 and C9: scheduler and worker pool. -/

/-- C8: in the scheduler's step relation at most one round executes —
a tick that arrives while the running flag is set leaves the state
completely unchanged (no pruning, no site-list read, no probes, nothing
queued or merged), the flag can only be cleared by the round-completion
step and only once every probe task of the round has finished, `Start`
runs one round immediately, and each later tick attempts one round
(starting it when idle) until cancellation, after which ticks do
nothing. -/
theorem C8_scheduler (n : Nat) (s : SchedState) :
    (s.running = true → schedStep n s .tick = s)
    ∧ (∀ e : SchedEvent, (schedStep n s e).running = false →
        s.running = false ∨ (e = .roundComplete ∧ s.activeWorkers = 0))
    ∧ (schedStart n).roundsStarted = 1 ∧ (schedStart n).prunes = 1
      ∧ (schedStart n).running = true
    ∧ (s.cancelled = true → schedStep n s .tick = s)
    ∧ (s.cancelled = false → s.running = false →
        (schedStep n s .tick).roundsStarted = s.roundsStarted + 1
        ∧ (schedStep n s .tick).running = true) := by
  refine ⟨?_, ?_, rfl, rfl, rfl, ?_, ?_⟩
  · intro h
    unfold schedStep
    by_cases hc : s.cancelled = true <;> simp [hc, h]
  · intro e h
    by_cases hrun : s.running = true
    · cases e with
      | tick =>
          have hstep : schedStep n s .tick = s := by
            by_cases hc : s.cancelled = true <;> simp [schedStep, hc, hrun]
          rw [hstep] at h
          exact Or.inl h
      | workerFinish =>
          have hrw : (schedStep n s .workerFinish).running = s.running := by
            simp only [schedStep]
            split <;> rfl
          rw [hrw] at h
          exact Or.inl h
      | roundComplete =>
          simp only [schedStep] at h
          split at h
          · rename_i hcnd
            exact Or.inr ⟨rfl, hcnd.2⟩
          · exact Or.inl h
      | cancel =>
          exact Or.inl h
    · simp only [Bool.not_eq_true] at hrun
      exact Or.inl hrun
  · intro h
    unfold schedStep
    simp [h]
  · intro h1 h2
    unfold schedStep
    simp [h1, h2]

/-- Witness for C8: a tick against a running scheduler changes nothing,
and a tick against an idle scheduler starts exactly one round. -/
theorem C8_scheduler_witness :
    schedStep 5 ⟨true, 2, 1, 1, false⟩ .tick = ⟨true, 2, 1, 1, false⟩
    ∧ (schedStep 5 ⟨false, 0, 0, 0, false⟩ .tick).roundsStarted = 1 := by
  refine ⟨(C8_scheduler 5 ⟨true, 2, 1, 1, false⟩).1 rfl, ?_⟩
  have h := ((C8_scheduler 5 ⟨false, 0, 0, 0, false⟩).2.2.2.2.2.2 rfl rfl).1
  simpa using h

theorem poolStep_inv (numSites : Nat) (s : PoolState) (e : PoolEvent)
    (h : poolInv numSites s) : poolInv numSites (poolStep s e) := by
  obtain ⟨h1, h2, h3, h4⟩ := h
  have hm : maxConcurrentChecks = 10 := rfl
  have h2n : s.semCount ≤ 10 := by rw [hm] at h2; exact h2
  unfold poolInv
  cases e with
  | launch =>
      by_cases hc : 0 < s.toLaunch ∧ s.semCount < maxConcurrentChecks
      · have hc1 := hc.1
        have hc2 : s.semCount < 10 := by
          have := hc.2
          rw [hm] at this
          exact this
        have hstep : poolStep s .launch =
            { s with toLaunch := s.toLaunch - 1, launched := s.launched + 1,
                     semCount := s.semCount + 1 } := by
          simp [poolStep, hc]
        rw [hstep]
        refine ⟨?_, ?_, ?_, fun hr => ?_⟩
        · show s.finished + (s.semCount + 1) = s.launched + 1
          omega
        · show s.semCount + 1 ≤ maxConcurrentChecks
          rw [hm]
          omega
        · show s.launched + 1 + (s.toLaunch - 1) = numSites
          omega
        · have hr2 : s.roundDone = true := hr
          have h5 := h4 hr2
          refine ⟨?_, ?_⟩
          · show s.finished = s.launched + 1
            omega
          · show s.toLaunch - 1 = 0
            omega
      · have hstep : poolStep s .launch = s := by simp [poolStep, hc]
        rw [hstep]
        exact ⟨h1, h2, h3, h4⟩
  | finish =>
      by_cases hc : s.finished < s.launched ∧ 0 < s.semCount
      · have hc1 := hc.1
        have hc2 := hc.2
        have hstep : poolStep s .finish =
            { s with finished := s.finished + 1,
                     semCount := s.semCount - 1 } := by
          simp [poolStep, hc]
        rw [hstep]
        refine ⟨?_, ?_, ?_, fun hr => ?_⟩
        · show s.finished + 1 + (s.semCount - 1) = s.launched
          omega
        · show s.semCount - 1 ≤ maxConcurrentChecks
          rw [hm]
          omega
        · exact h3
        · have hr2 : s.roundDone = true := hr
          have h5 := h4 hr2
          refine ⟨?_, h5.2⟩
          show s.finished + 1 = s.launched
          omega
      · have hstep : poolStep s .finish = s := by simp [poolStep, hc]
        rw [hstep]
        exact ⟨h1, h2, h3, h4⟩
  | complete =>
      by_cases hc : s.toLaunch = 0 ∧ s.finished = s.launched
      · have hstep : poolStep s .complete = { s with roundDone := true } := by
          simp [poolStep, hc]
        rw [hstep]
        exact ⟨h1, h2, h3, fun _ => ⟨hc.2, hc.1⟩⟩
      · have hstep : poolStep s .complete = s := by simp [poolStep, hc]
        rw [hstep]
        exact ⟨h1, h2, h3, h4⟩

theorem poolRun_inv (numSites : Nat) (evts : List PoolEvent) :
    poolInv numSites (poolRun numSites evts) := by
  have hinit : poolInv numSites (poolInit numSites) := by
    refine ⟨rfl, by simp [poolInit, maxConcurrentChecks], by simp [poolInit], ?_⟩
    intro hr
    simp [poolInit] at hr
  suffices h : ∀ (l : List PoolEvent) (s : PoolState), poolInv numSites s →
      poolInv numSites (l.foldl poolStep s) by
    exact h evts (poolInit numSites) hinit
  intro l
  induction l with
  | nil => intro s hs; exact hs
  | cons e rest ih =>
      intro s hs
      exact ih (poolStep s e) (poolStep_inv numSites s e hs)

/-- C9: over every interleaving of launcher and worker steps for any
number of listed sites (50 included), the number of in-flight probe
workers — launched but unfinished, equal to the semaphore slots held —
never exceeds the cap of 10; and the round reaches completion only once
every launched worker has finished and every listed site was launched. -/
theorem C9_worker_cap (numSites : Nat) (evts : List PoolEvent) :
    (poolRun numSites evts).launched - (poolRun numSites evts).finished ≤
        maxConcurrentChecks
    ∧ (poolRun numSites evts).semCount ≤ maxConcurrentChecks
    ∧ ((poolRun numSites evts).roundDone = true →
        (poolRun numSites evts).finished = (poolRun numSites evts).launched
        ∧ (poolRun numSites evts).launched = numSites) := by
  obtain ⟨h1, h2, h3, h4⟩ := poolRun_inv numSites evts
  have hm : maxConcurrentChecks = 10 := rfl
  have h2n : (poolRun numSites evts).semCount ≤ 10 := by
    rw [hm] at h2
    exact h2
  refine ⟨?_, h2, fun hr => ?_⟩
  · rw [hm]
    omega
  · have h5 := h4 hr
    exact ⟨h5.1, by omega⟩

/-- Witness for C9: one site launched, finished, and the round
completed. -/
theorem C9_worker_cap_witness :
    (poolRun 1 [PoolEvent.launch, PoolEvent.finish, PoolEvent.complete]).launched -
        (poolRun 1 [PoolEvent.launch, PoolEvent.finish, PoolEvent.complete]).finished ≤
        maxConcurrentChecks
    ∧ (poolRun 1 [PoolEvent.launch, PoolEvent.finish, PoolEvent.complete]).finished =
        (poolRun 1 [PoolEvent.launch, PoolEvent.finish, PoolEvent.complete]).launched := by
  refine ⟨(C9_worker_cap 1 [PoolEvent.launch, PoolEvent.finish,
    PoolEvent.complete]).1, ?_⟩
  exact ((C9_worker_cap 1 [PoolEvent.launch, PoolEvent.finish,
    PoolEvent.complete]).2.2 (by decide)).1
